import Mathlib

/-!
Verification of the `aws_role_assume` repository core: the SigV4 request
signer (`src/aws/request_signer.py`) and the role-assumption client
(`src/aws/role_assumer.py`), with the exception kinds of
`src/aws/exceptions.py`.

The embedding is shallow: strings are Lean `String`, byte strings are
`List Nat` (each element `< 256`), Python dictionaries are association
lists with unique keys, raised exceptions are the `.error` side of
`Except`, and the HTTP transport is an explicit input describing either a
completed response (status plus the parse outcome of its body) or a raised
transport exception.
-/

/-- Exception kinds that can cross the boundaries of the modelled code.
`roleAssumeError` is `RoleAssumeError` from `exceptions.py`.
`signingError` and `credentialError` are modelled from the spec: the
classes `SigningError` and `CredentialError` are imported by both source
modules but their definitions are absent from `exceptions.py`; the spec
describes them as the signing-fault and missing-credential kinds rooted in
the same base category.  `httpError` models `requests.exceptions.HTTPError`
(raised by `response.raise_for_status`), `transportError` models a
transport exception raised by `requests.get`, `typeError` models Python's
`TypeError`, and `parseError` models `xml.etree.ElementTree.ParseError`. -/
inductive PyError where
  | roleAssumeError (msg : String)
  | signingError (msg : String)
  | credentialError (msg : String)
  | httpError (msg : String)
  | transportError (msg : String)
  | typeError (msg : String)
  | parseError (msg : String)
deriving DecidableEq, Repr

/-- True exactly for the three exception kinds of the credential subsystem
(`RoleAssumeError`, `SigningError`, `CredentialError`). -/
def isCoreError : PyError → Bool
  | .roleAssumeError _ => true
  | .signingError _ => true
  | .credentialError _ => true
  | _ => false

/-- UTF-8 encoding of a single character, as byte values. -/
def charUtf8 (c : Char) : List Nat :=
  let n := c.toNat
  if n < 128 then [n]
  else if n < 2048 then [192 ||| (n >>> 6), 128 ||| (n &&& 63)]
  else if n < 65536 then
    [224 ||| (n >>> 12), 128 ||| ((n >>> 6) &&& 63), 128 ||| (n &&& 63)]
  else
    [240 ||| (n >>> 18), 128 ||| ((n >>> 12) &&& 63),
     128 ||| ((n >>> 6) &&& 63), 128 ||| (n &&& 63)]

/-- UTF-8 bytes of a string, the encoding Python applies before both
percent-encoding and hashing. -/
def strBytes (s : String) : List Nat :=
  s.data.foldr (fun c acc => charUtf8 c ++ acc) []

/-- Lowercase hex digit, as produced by Python's `hexdigest`. -/
def hexChar (n : Nat) : Char :=
  if n < 10 then Char.ofNat (48 + n) else Char.ofNat (87 + n)

/-- Uppercase hex digit, as used by `urllib.parse.quote`. -/
def hexCharUpper (n : Nat) : Char :=
  if n < 10 then Char.ofNat (48 + n) else Char.ofNat (55 + n)

/-- Lowercase hex rendering of a byte string (`bytes.hex` / `hexdigest`). -/
def bytesToHex (bs : List Nat) : String :=
  String.join (bs.map fun b => String.mk [hexChar (b / 16), hexChar (b % 16)])

/-- Percent-escape of one byte, `%XX` with uppercase hex, as in
`urllib.parse.quote`. -/
def percentEncodeByte (b : Nat) : String :=
  String.mk ['%', hexCharUpper (b / 16), hexCharUpper (b % 16)]

/-- RFC 3986 unreserved bytes: ALPHA, DIGIT, `-`, `.`, `_`, `~`.  This is
Python's `_ALWAYS_SAFE` set. -/
def unreservedByte (b : Nat) : Bool :=
  (65 ≤ b && b ≤ 90) || (97 ≤ b && b ≤ 122) || (48 ≤ b && b ≤ 57) ||
    b == 45 || b == 46 || b == 95 || b == 126

/-- Bytes left unencoded by `urllib.parse.quote` with its default
`safe="/"` argument: the unreserved set plus the slash (byte 47). -/
def quoteSafeByte (b : Nat) : Bool :=
  unreservedByte b || b == 47

/-- Embedding of `urllib.parse.quote(v)` as called at
`request_signer.py` line 78: encode to UTF-8, keep safe bytes, escape the
rest as `%XX`. -/
def quote (s : String) : String :=
  String.join ((strBytes s).map fun b =>
    if quoteSafeByte b then String.singleton (Char.ofNat b) else percentEncodeByte b)

/-- Truncation to a 32-bit word. -/
def w32 (n : Nat) : Nat := n % 4294967296

/-- Right-rotation of a 32-bit word. -/
def rotr (x n : Nat) : Nat := w32 ((x >>> n) ||| (x <<< (32 - n)))

/-- SHA-256 big sigma-0. -/
def bigS0 (x : Nat) : Nat := rotr x 2 ^^^ rotr x 13 ^^^ rotr x 22

/-- SHA-256 big sigma-1. -/
def bigS1 (x : Nat) : Nat := rotr x 6 ^^^ rotr x 11 ^^^ rotr x 25

/-- SHA-256 small sigma-0. -/
def smallS0 (x : Nat) : Nat := rotr x 7 ^^^ rotr x 18 ^^^ (x >>> 3)

/-- SHA-256 small sigma-1. -/
def smallS1 (x : Nat) : Nat := rotr x 17 ^^^ rotr x 19 ^^^ (x >>> 10)

/-- SHA-256 choice function. -/
def chV (e f g : Nat) : Nat := (e &&& f) ^^^ ((e ^^^ 4294967295) &&& g)

/-- SHA-256 majority function. -/
def majV (a b c : Nat) : Nat := (a &&& b) ^^^ (a &&& c) ^^^ (b &&& c)

/-- The 64 SHA-256 round constants. -/
def K256 : List Nat :=
  [1116352408, 1899447441, 3049323471, 3921009573, 961987163,
   1508970993, 2453635748, 2870763221, 3624381080, 310598401,
   607225278, 1426881987, 1925078388, 2162078206, 2614888103,
   3248222580, 3835390401, 4022224774, 264347078, 604807628,
   770255983, 1249150122, 1555081692, 1996064986, 2554220882,
   2821834349, 2952996808, 3210313671, 3336571891, 3584528711,
   113926993, 338241895, 666307205, 773529912, 1294757372,
   1396182291, 1695183700, 1986661051, 2177026350, 2456956037,
   2730485921, 2820302411, 3259730800, 3345764771, 3516065817,
   3600352804, 4094571909, 275423344, 430227734, 506948616,
   659060556, 883997877, 958139571, 1322822218, 1537002063,
   1747873779, 1955562222, 2024104815, 2227730452, 2361852424,
   2428436474, 2756734187, 3204031479, 3329325298]

/-- The SHA-256 initial hash value. -/
def H256init : List Nat :=
  [1779033703, 3144134277, 1013904242, 2773480762, 1359893119,
   2600822924, 528734635, 1541459225]

/-- Big-endian byte rendering of `n` in `k` bytes. -/
def beBytes (k n : Nat) : List Nat :=
  match k with
  | 0 => []
  | k + 1 => beBytes k (n / 256) ++ [n % 256]

/-- Group a byte list into big-endian 32-bit words. -/
def wordsOfBytes : List Nat → List Nat
  | b0 :: b1 :: b2 :: b3 :: rest =>
    (b0 * 16777216 + b1 * 65536 + b2 * 256 + b3) :: wordsOfBytes rest
  | _ => []

/-- Extend a 16-word message schedule by `fuel` further words. -/
def extendW (ws : List Nat) : Nat → List Nat
  | 0 => ws
  | f + 1 =>
    let i := ws.length
    let w := w32 (smallS1 (ws.getD (i - 2) 0) + ws.getD (i - 7) 0 +
      smallS0 (ws.getD (i - 15) 0) + ws.getD (i - 16) 0)
    extendW (ws ++ [w]) f

/-- One SHA-256 compression round; `kw` is the round constant already
added to the schedule word, the state is the eight working variables. -/
def sha256Round (st : List Nat) (kw : Nat) : List Nat :=
  match st with
  | [a, b, c, d, e, f, g, h] =>
    let t1 := w32 (h + bigS1 e + chV e f g + kw)
    let t2 := w32 (bigS0 a + majV a b c)
    [w32 (t1 + t2), a, b, c, w32 (d + t1), e, f, g]
  | other => other

/-- Compress one 64-byte chunk into the running hash. -/
def processChunk (hs : List Nat) (chunk : List Nat) : List Nat :=
  let ws := extendW (wordsOfBytes chunk) 48
  let kws := (K256.zip ws).map fun p => w32 (p.1 + p.2)
  let st := kws.foldl sha256Round hs
  (hs.zip st).map fun p => w32 (p.1 + p.2)

/-- Split a byte list into successive 64-byte chunks, with enough fuel to
consume the whole list (each step removes at least one element, so a fuel
of the list's length never runs out). -/
def chunksOf64Go : Nat → List Nat → List (List Nat)
  | _, [] => []
  | 0, _ :: _ => []
  | f + 1, b :: rest => ((b :: rest).take 64) :: chunksOf64Go f ((b :: rest).drop 64)

/-- Split a byte list into successive 64-byte chunks. -/
def chunksOf64 (l : List Nat) : List (List Nat) :=
  chunksOf64Go l.length l

/-- SHA-256 of a byte string, as a 32-byte digest (Python `hashlib.sha256`). -/
def sha256 (msg : List Nat) : List Nat :=
  let padded := msg ++ [128] ++ List.replicate ((119 - msg.length % 64) % 64) 0 ++
    beBytes 8 (msg.length * 8)
  let hs := (chunksOf64 padded).foldl processChunk H256init
  hs.foldr (fun h acc => beBytes 4 h ++ acc) []

/-- HMAC-SHA256 (Python `hmac.new(key, msg, hashlib.sha256).digest()`). -/
def hmacSha256 (key msg : List Nat) : List Nat :=
  let k0 := if 64 < key.length then sha256 key else key
  let k := k0 ++ List.replicate (64 - k0.length) 0
  let ipadKey := k.map fun b => b ^^^ 54
  let opadKey := k.map fun b => b ^^^ 92
  sha256 (opadKey ++ sha256 (ipadKey ++ msg))

/-- Hex digest of the SHA-256 of a string's UTF-8 bytes
(`hashlib.sha256(s.encode("utf-8")).hexdigest()`). -/
def sha256HexOfString (s : String) : String :=
  bytesToHex (sha256 (strBytes s))

/-- Lexicographic strict comparison of code-point lists; this is Python's
`<` on strings, which compares by code point. -/
def charListLt : List Char → List Char → Bool
  | [], [] => false
  | [], _ :: _ => true
  | _ :: _, [] => false
  | a :: as, b :: bs =>
    if a.toNat < b.toNat then true
    else if b.toNat < a.toNat then false
    else charListLt as bs

/-- Python's `<` on strings. -/
def strLt (a b : String) : Prop := charListLt a.data b.data = true

instance : DecidableRel strLt := fun a b =>
  inferInstanceAs (Decidable (charListLt a.data b.data = true))

/-- Python's `<=` on strings. -/
def strLe (a b : String) : Prop := strLt a b ∨ a = b

instance : DecidableRel strLe := fun a b =>
  inferInstanceAs (Decidable (strLt a b ∨ a = b))

/-- Order in which Python's `sorted(params.items())` arranges the items of
a string-valued dict: tuples compared lexicographically, strings by code
point. -/
def pairLeP (a b : String × String) : Prop :=
  strLt a.1 b.1 ∨ (a.1 = b.1 ∧ strLe a.2 b.2)

instance : DecidableRel pairLeP := fun a b =>
  inferInstanceAs (Decidable (strLt a.1 b.1 ∨ (a.1 = b.1 ∧ strLe a.2 b.2)))

/-- Key order on parameter items: lexicographic comparison of the keys. -/
def keyLeP (a b : String × String) : Prop := strLe a.1 b.1

instance : DecidableRel keyLeP := fun a b =>
  inferInstanceAs (Decidable (strLe a.1 b.1))

/-- Strict key order on parameter items. -/
def keyLtP (a b : String × String) : Prop := strLt a.1 b.1

/-- Embedding of `request_signer.py` lines 77-79: the canonical
querystring is built by sorting the items and joining `k=quote(v)` with
`&`.  Python's `sorted` is a stable sort under the total item order
`pairLeP`, so any stable sort is an exact model; `List.insertionSort` is
one. -/
def canonicalQuerystring (ps : List (String × String)) : String :=
  String.intercalate "&"
    ((List.insertionSort pairLeP ps).map fun kv => kv.1 ++ "=" ++ quote kv.2)

/-- Embedding of `request_signer.py` lines 80-83: the canonical headers
block, `host` then `x-amz-date`, each line newline-terminated. -/
def canonicalHeaders (region amzdate : String) : String :=
  "host:sts." ++ region ++ ".amazonaws.com\n" ++ "x-amz-date:" ++ amzdate ++ "\n"

/-- The fixed `SignedHeaders` literal of `request_signer.py` line 84. -/
def signedHeadersLit : String := "host;x-amz-date"

/-- Embedding of `request_signer.py` lines 87-90: the canonical request
string. -/
def canonicalRequest (method cq region amzdate payload : String) : String :=
  method ++ "\n" ++ "/" ++ "\n" ++ cq ++ "\n" ++ canonicalHeaders region amzdate ++
    "\n" ++ signedHeadersLit ++ "\n" ++ sha256HexOfString payload

/-- Embedding of `request_signer.py` line 94: the credential scope. -/
def credentialScope (datestamp region : String) : String :=
  datestamp ++ "/" ++ region ++ "/sts/aws4_request"

/-- Embedding of `request_signer.py` lines 95-98: the string to sign. -/
def stringToSign (amzdate datestamp region cr : String) : String :=
  "AWS4-HMAC-SHA256" ++ "\n" ++ amzdate ++ "\n" ++ credentialScope datestamp region ++
    "\n" ++ sha256HexOfString cr

/-- Embedding of `request_signer.py` lines 101-108: the signing key, built
by the inline chain `k_date`, `k_region`, `k_service`, `k_signing`. -/
def kSigning (secret_key datestamp region : String) : List Nat :=
  let kDate := hmacSha256 (strBytes ("AWS4" ++ secret_key)) (strBytes datestamp)
  let kRegion := hmacSha256 kDate (strBytes region)
  let kService := hmacSha256 kRegion (strBytes "sts")
  hmacSha256 kService (strBytes "aws4_request")

/-- Embedding of `request_signer.py` lines 109-113: the hex signature of
the string to sign under the derived key. -/
def signatureHex (secret_key datestamp region sts : String) : String :=
  bytesToHex (hmacSha256 (kSigning secret_key datestamp region) (strBytes sts))

/-- Embedding of `request_signer.py` lines 116-121: the Authorization
header value. -/
def authorizationHeader (access_key datestamp region signature : String) : String :=
  "AWS4-HMAC-SHA256 Credential=" ++ access_key ++ "/" ++ credentialScope datestamp region ++
    ", SignedHeaders=" ++ signedHeadersLit ++ ", Signature=" ++ signature

/-- Embedding of `RequestSigner.sign_request` on string-valued parameters
(the non-raising path), with the ambient UTC instant supplied as the
`amzdate`/`datestamp` pair the code derives from it.  The unused `url`
argument is kept because the source function takes it. -/
def signRequest (access_key secret_key region amzdate datestamp method url : String)
    (params : List (String × String)) (payload : String) : List (String × String) :=
  let cq := canonicalQuerystring params
  let cr := canonicalRequest method cq region amzdate payload
  let sts := stringToSign amzdate datestamp region cr
  let sig := signatureHex secret_key datestamp region sts
  let _ := url
  [("Authorization", authorizationHeader access_key datestamp region sig),
   ("x-amz-date", amzdate)]

/-- Modelled from the spec (section 4, step 4): the signing-key derivation
chain, a fold of keyed HMAC-SHA256 steps over the scope components
`datestamp`, `region`, `"sts"`, `"aws4_request"`, seeded with
`"AWS4" + secret_key`. -/
def specSigningKey (secret_key datestamp region : String) : List Nat :=
  List.foldl (fun k comp => hmacSha256 k (strBytes comp))
    (strBytes ("AWS4" ++ secret_key)) [datestamp, region, "sts", "aws4_request"]

/-- Modelled from the spec (section 4, step 5): the signature is the hex
HMAC-SHA256 of the string to sign under the derived signing key. -/
def specSignature (secret_key datestamp region sts : String) : String :=
  bytesToHex (hmacSha256 (specSigningKey secret_key datestamp region) (strBytes sts))

/-- Modelled from the spec words of C3: a percent-encoder that leaves only
the URL-safe unreserved character set unencoded. -/
def specQuoteUnreservedOnly (s : String) : String :=
  String.join ((strBytes s).map fun b =>
    if unreservedByte b then String.singleton (Char.ofNat b) else percentEncodeByte b)

/-- Modelled from the spec words of C3: parameters sorted lexicographically
by key, values encoded leaving only the unreserved set, joined with `&`. -/
def specCanonicalQuerystring (ps : List (String × String)) : String :=
  String.intercalate "&"
    ((List.insertionSort keyLeP ps).map fun kv => kv.1 ++ "=" ++ specQuoteUnreservedOnly kv.2)

/-- The `TypeError` message Python's `quote` raises when handed `None`
instead of a string. -/
def typeErrMsg : String := "quote_from_bytes() expected bytes"

/-- Key order on items whose values may be `None`.  `sorted` never
compares the values because the dict keys are unique. -/
def keyLeOptP (a b : String × Option String) : Prop := strLe a.1 b.1

instance : DecidableRel keyLeOptP := fun a b =>
  inferInstanceAs (Decidable (strLe a.1 b.1))

/-- The list comprehension of `request_signer.py` line 78 over sorted
items whose values may be `None`: each item becomes `k=quote(v)`, and a
`None` value makes `quote` raise `TypeError`. -/
def joinQuotedE : List (String × Option String) → Except String (List String)
  | [] => .ok []
  | (_, none) :: _ => .error typeErrMsg
  | (k, some v) :: rest => (joinQuotedE rest).map fun tl => (k ++ "=" ++ quote v) :: tl

/-- Embedding of `request_signer.py` lines 77-79 on possibly-`None`
values: sort the items by key, quote each value, join with `&`; a `None`
value surfaces as the `TypeError` that `quote` raises. -/
def canonicalQuerystringE (ps : List (String × Option String)) : Except String String :=
  (joinQuotedE (List.insertionSort keyLeOptP ps)).map (String.intercalate "&")

/-- Embedding of `RequestSigner.sign_request` as invoked by
`RoleAssumer.assume_role`: parameter values may be `None`, and any
exception inside the body is caught by the `except Exception` clause at
`request_signer.py` lines 128-129 and re-raised as `SigningError` with the
original message appended to a fixed context string. -/
def signRequestE (access_key secret_key region amzdate datestamp method url : String)
    (params : List (String × Option String)) (payload : String) :
    Except PyError (List (String × String)) :=
  match canonicalQuerystringE params with
  | .error m => .error (.signingError ("Failed to sign request: " ++ m))
  | .ok cq =>
    let cr := canonicalRequest method cq region amzdate payload
    let sts := stringToSign amzdate datestamp region cr
    let sig := signatureHex secret_key datestamp region sts
    let _ := url
    .ok [("Authorization", authorizationHeader access_key datestamp region sig),
         ("x-amz-date", amzdate)]

/-- An XML element: tag (namespace-qualified, in ElementTree's
brace-wrapped rendering), optional text content, child elements. -/
inductive XmlNode where
  | elem (tag : String) (text : Option String) (children : List XmlNode)

/-- Tag of an element. -/
def XmlNode.tag : XmlNode → String
  | .elem t _ _ => t

/-- Text content of an element (`Element.text`). -/
def XmlNode.text : XmlNode → Option String
  | .elem _ tx _ => tx

/-- Child elements of an element. -/
def XmlNode.children : XmlNode → List XmlNode
  | .elem _ _ cs => cs

/-- ElementTree `element.find(tag)`: first direct child with the tag. -/
def findChild (tag : String) (n : XmlNode) : Option XmlNode :=
  n.children.find? fun c => c.tag == tag

mutual

/-- Depth-first search for a tag in one subtree: the node itself, then its
children, in document order. -/
def findInNode (tag : String) : XmlNode → Option XmlNode
  | .elem t tx cs => if t == tag then some (.elem t tx cs) else findInForest tag cs

/-- Depth-first search for a tag across a list of subtrees in document
order. -/
def findInForest (tag : String) : List XmlNode → Option XmlNode
  | [] => none
  | x :: rest =>
    match findInNode tag x with
    | some r => some r
    | none => findInForest tag rest

end

/-- ElementTree `element.find(".//tag")` over a list of subtrees: first
element with the tag in document order, searching all levels. -/
def findAnywhere (tag : String) (l : List XmlNode) : Option XmlNode :=
  findInForest tag l

/-- The STS response XML namespace, in ElementTree's brace-wrapped tag
rendering. -/
def stsNs : String := "\x7bhttps://sts.amazonaws.com/doc/2011-06-15/\x7d"

/-- Text of the named namespaced direct child of an element, when both
the child and its text are present. -/
def childText (creds : XmlNode) (name : String) : Option String :=
  (findChild (stsNs ++ name) creds).bind XmlNode.text

/-- Embedding of `RoleAssumer._get_credential_text`
(`role_assumer.py` lines 176-194). -/
def getCredentialText (element : Option XmlNode) (name : String) : Except PyError String :=
  match element with
  | none => .error (.roleAssumeError "Credentials element is None")
  | some el =>
    match findChild (stsNs ++ name) el with
    | none => .error (.roleAssumeError ("Missing " ++ name ++ " in credentials response"))
    | some cred =>
      match cred.text with
      | none => .error (.roleAssumeError ("No text content in " ++ name ++ " element"))
      | some t => .ok t

/-- The `except RoleAssumeError` clause at `role_assumer.py` lines
253-254: a `RoleAssumeError` from field extraction is re-raised with an
`Invalid credential format` context; any other exception would propagate
unchanged. -/
def wrapCredErr (e : PyError) : Except PyError (List (String × String)) :=
  match e with
  | .roleAssumeError m => .error (.roleAssumeError ("Invalid credential format: " ++ m))
  | other => .error other

/-- Embedding of the inner `try` of `assume_role` (`role_assumer.py`
lines 246-254): build the four-field credential dict, stopping at the
first failing field. -/
def extractCredentials (creds : XmlNode) : Except PyError (List (String × String)) :=
  match getCredentialText (some creds) "AccessKeyId" with
  | .error e => wrapCredErr e
  | .ok a =>
    match getCredentialText (some creds) "SecretAccessKey" with
    | .error e => wrapCredErr e
    | .ok s =>
      match getCredentialText (some creds) "SessionToken" with
      | .error e => wrapCredErr e
      | .ok t =>
        match getCredentialText (some creds) "Expiration" with
        | .error e => wrapCredErr e
        | .ok ex =>
          .ok [("AccessKeyId", a), ("SecretAccessKey", s),
               ("SessionToken", t), ("Expiration", ex)]

/-- Python truthiness of an optional string: `None` and the empty string
are falsy. -/
def truthyOpt : Option String → Bool
  | none => false
  | some s => decide (s ≠ "")

/-- Python `str()` of an optional string, as interpolated by an f-string:
`None` renders as `"None"`. -/
def pyOptStr : Option String → String
  | none => "None"
  | some s => s

/-- Embedding of the `params` dict built at `role_assumer.py` lines
204-213: the five fixed entries in insertion order, then `ExternalId`
appended only when `self.external_id` is truthy. -/
def buildParams (role_arn external_id : Option String) (session_duration ts : Nat) :
    List (String × Option String) :=
  [("Action", some "AssumeRole"),
   ("Version", some "2011-06-15"),
   ("RoleArn", role_arn),
   ("RoleSessionName", some ("s3fs-session-" ++ toString ts)),
   ("DurationSeconds", some (toString session_duration))] ++
  (if truthyOpt external_id then [("ExternalId", external_id)] else [])

/-- The held state of a `RequestSigner` instance. -/
structure RequestSignerS where
  access_key : String
  secret_key : String
  region : String
deriving DecidableEq, Repr

/-- The held state of a `RoleAssumer` instance after construction. -/
structure RoleAssumerS where
  role_arn : Option String
  external_id : Option String
  region : String
  session_duration : Nat
  access_key : Option String
  secret_key : Option String
  signer : RequestSignerS
deriving DecidableEq, Repr

/-- Embedding of `RoleAssumer.__init__` (`role_assumer.py` lines
155-174).  The ambient environment variables `AWS_ACCESS_KEY_ID` and
`AWS_SECRET_ACCESS_KEY` are passed as the two `Option String` inputs
(`os.environ.get` yields `None` when a variable is absent).  Construction
performs no signing and no network call; it only checks truthiness of the
two values and stores the configuration. -/
def roleAssumerInit (role_arn external_id : Option String) (region : String)
    (session_duration : Nat) (envAK envSK : Option String) :
    Except PyError RoleAssumerS :=
  if truthyOpt envAK && truthyOpt envSK then
    .ok { role_arn := role_arn, external_id := external_id, region := region,
          session_duration := session_duration,
          access_key := envAK, secret_key := envSK,
          signer := { access_key := envAK.getD "", secret_key := envSK.getD "",
                      region := region } }
  else
    .error (.credentialError "AWS credentials not found in environment")

/-- A completed HTTP response as seen by `assume_role`: the status code
and the outcome of parsing `response.content` as XML (`.error` carries the
`ParseError` message). -/
structure HttpResponseM where
  status : Nat
  body : Except String XmlNode

/-- Outcome of the `requests.get` call: either a completed response or a
raised transport exception. -/
inductive HttpOutcome where
  | response (r : HttpResponseM)
  | raised (msg : String)

/-- Embedding of `requests.Response.raise_for_status`: raises
`HTTPError` exactly for status codes in `[400, 600)`. -/
def raiseForStatus (status : Nat) : Except PyError Unit :=
  if 400 ≤ status ∧ status < 500 then
    .error (.httpError (toString status ++ " Client Error"))
  else if 500 ≤ status ∧ status < 600 then
    .error (.httpError (toString status ++ " Server Error"))
  else .ok ()

/-- Embedding of `RoleAssumer.assume_role` (`role_assumer.py` lines
196-257).  Ambient inputs are made explicit: `ts` is `int(time.time())`,
`amzdate`/`datestamp` are the rendering of the signer's
`datetime.datetime.utcnow()`, and `http` is the outcome of the
`requests.get` call.  The outer `try` catches only `ET.ParseError`; every
other exception raised inside it propagates to the caller unchanged. -/
def assumeRole (st : RoleAssumerS) (ts : Nat) (amzdate datestamp : String)
    (http : HttpOutcome) : Except PyError (List (String × String)) :=
  let params := buildParams st.role_arn st.external_id st.session_duration ts
  match signRequestE st.signer.access_key st.signer.secret_key st.signer.region
      amzdate datestamp "GET" ("https://sts." ++ st.region ++ ".amazonaws.com")
      params "" with
  | .error e => .error e
  | .ok _headers =>
    match http with
    | .raised m => .error (.transportError m)
    | .response r =>
      if r.status == 403 then
        .error (.roleAssumeError
          ("Failed to assume role " ++ pyOptStr st.role_arn ++ ": Access denied"))
      else
        match raiseForStatus r.status with
        | .error e => .error e
        | .ok _ =>
          match r.body with
          | .error m => .error (.roleAssumeError ("Failed to parse XML response: " ++ m))
          | .ok root =>
            match findAnywhere (stsNs ++ "Credentials") root.children with
            | none => .error (.roleAssumeError "No credentials found in response")
            | some creds => extractCredentials creds

/-- Whether the first character list is an initial segment of the second. -/
def leadsWith : List Char → List Char → Bool
  | [], _ => true
  | _ :: _, [] => false
  | a :: as, b :: bs => a == b && leadsWith as bs

/-- Whether `sub` occurs contiguously inside the second list. -/
def hasSubList (sub : List Char) : List Char → Bool
  | [] => sub.isEmpty
  | c :: rest => leadsWith sub (c :: rest) || hasSubList sub rest

/-- Whether `sub` occurs contiguously inside `s`. -/
def strContainsSub (s sub : String) : Bool :=
  hasSubList sub.data s.data

instance {ε α : Type} [DecidableEq ε] [DecidableEq α] : DecidableEq (Except ε α) := fun x y =>
  match x, y with
  | .ok a, .ok b =>
    if h : a = b then isTrue (by rw [h]) else isFalse (by intro hh; cases hh; exact h rfl)
  | .error a, .error b =>
    if h : a = b then isTrue (by rw [h]) else isFalse (by intro hh; cases hh; exact h rfl)
  | .ok _, .error _ => isFalse (by intro hh; cases hh)
  | .error _, .ok _ => isFalse (by intro hh; cases hh)

/-- A sample parsed `Credentials` element carrying all four fields, used
by concrete witnesses. -/
def sampleCreds : XmlNode :=
  .elem (stsNs ++ "Credentials") none
    [.elem (stsNs ++ "AccessKeyId") (some "AKIA") [],
     .elem (stsNs ++ "SecretAccessKey") (some "SECRET") [],
     .elem (stsNs ++ "SessionToken") (some "TOKEN") [],
     .elem (stsNs ++ "Expiration") (some "2026-01-01T00:00:00Z") []]

/-- A sample parsed STS `AssumeRoleResponse` document containing
`sampleCreds` at depth two, used by concrete witnesses. -/
def sampleRoot : XmlNode :=
  .elem (stsNs ++ "AssumeRoleResponse") none
    [.elem (stsNs ++ "AssumeRoleResult") none [sampleCreds]]

/-- A sample constructed `RoleAssumer` state, used by concrete
witnesses. -/
def sampleState : RoleAssumerS :=
  { role_arn := some "arn:aws:iam::123456789012:role/demo", external_id := none,
    region := "us-east-1", session_duration := 3600,
    access_key := some "AK", secret_key := some "SK",
    signer := { access_key := "AK", secret_key := "SK", region := "us-east-1" } }

theorem leadsWith_append_self (l t : List Char) : leadsWith l (l ++ t) = true := by
  induction l with
  | nil => rfl
  | cons a as ih => simp [leadsWith, ih]

theorem hasSubList_self_append (sub suf : List Char) :
    hasSubList sub (sub ++ suf) = true := by
  cases sub with
  | nil =>
    cases suf with
    | nil => rfl
    | cons c cs => simp [hasSubList, leadsWith]
  | cons a as =>
    simp only [List.cons_append, hasSubList, Bool.or_eq_true]
    exact Or.inl (leadsWith_append_self (a :: as) suf)

theorem hasSubList_append (pre sub suf : List Char) :
    hasSubList sub (pre ++ (sub ++ suf)) = true := by
  induction pre with
  | nil => simpa using hasSubList_self_append sub suf
  | cons c cs ih =>
    simp only [List.cons_append, hasSubList, Bool.or_eq_true]
    exact Or.inr ih

theorem strContainsSub_sandwich (p mid s : String) :
    strContainsSub (p ++ mid ++ s) mid = true := by
  unfold strContainsSub
  rw [String.data_append, String.data_append]
  simpa using hasSubList_append p.data mid.data s.data

theorem char_eq_of_toNat_eq (a b : Char) (h : a.toNat = b.toNat) : a = b := by
  have h2 := congrArg Char.ofNat h
  rwa [Char.ofNat_toNat, Char.ofNat_toNat] at h2

theorem charListLt_trichotomy (as bs : List Char) :
    charListLt as bs = true ∨ as = bs ∨ charListLt bs as = true := by
  induction as generalizing bs with
  | nil =>
    cases bs with
    | nil => exact Or.inr (Or.inl rfl)
    | cons b bs2 => exact Or.inl rfl
  | cons a as2 ih =>
    cases bs with
    | nil => exact Or.inr (Or.inr rfl)
    | cons b bs2 =>
      rcases Nat.lt_trichotomy a.toNat b.toNat with h | h | h
      · exact Or.inl (by simp [charListLt, h])
      · have hab : a = b := char_eq_of_toNat_eq a b h
        subst hab
        rcases ih bs2 with h2 | h2 | h2
        · exact Or.inl (by simp [charListLt, h2])
        · exact Or.inr (Or.inl (by rw [h2]))
        · exact Or.inr (Or.inr (by simp [charListLt, h2]))
      · exact Or.inr (Or.inr (by simp [charListLt, h]))

theorem charListLt_asymm (as bs : List Char) (h1 : charListLt as bs = true)
    (h2 : charListLt bs as = true) : False := by
  induction as generalizing bs with
  | nil =>
    cases bs with
    | nil => simp [charListLt] at h1
    | cons b bs2 => simp [charListLt] at h2
  | cons a as2 ih =>
    cases bs with
    | nil => simp [charListLt] at h1
    | cons b bs2 =>
      by_cases hab : a.toNat < b.toNat
      · have hba : ¬ b.toNat < a.toNat := by omega
        simp [charListLt, hab, hba] at h2
      · by_cases hba : b.toNat < a.toNat
        · simp [charListLt, hab, hba] at h1
        · simp [charListLt, hab, hba] at h1 h2
          exact ih bs2 h1 h2

theorem charListLt_trans (as bs cs : List Char) (h1 : charListLt as bs = true)
    (h2 : charListLt bs cs = true) : charListLt as cs = true := by
  induction as generalizing bs cs with
  | nil =>
    cases bs with
    | nil => simp [charListLt] at h1
    | cons b bs2 =>
      cases cs with
      | nil => simp [charListLt] at h2
      | cons c cs2 => rfl
  | cons a as2 ih =>
    cases bs with
    | nil => simp [charListLt] at h1
    | cons b bs2 =>
      cases cs with
      | nil => simp [charListLt] at h2
      | cons c cs2 =>
        by_cases hab : a.toNat < b.toNat
        · by_cases hbc : b.toNat < c.toNat
          · have hac : a.toNat < c.toNat := by omega
            simp [charListLt, hac]
          · by_cases hcb : c.toNat < b.toNat
            · simp [charListLt, hbc, hcb] at h2
            · have hac : a.toNat < c.toNat := by omega
              simp [charListLt, hac]
        · by_cases hba : b.toNat < a.toNat
          · simp [charListLt, hab, hba] at h1
          · by_cases hbc : b.toNat < c.toNat
            · have hac : a.toNat < c.toNat := by omega
              simp [charListLt, hac]
            · by_cases hcb : c.toNat < b.toNat
              · simp [charListLt, hbc, hcb] at h2
              · simp [charListLt, hab, hba] at h1
                simp [charListLt, hbc, hcb] at h2
                have hac1 : ¬ a.toNat < c.toNat := by omega
                have hac2 : ¬ c.toNat < a.toNat := by omega
                simp [charListLt, hac1, hac2]
                exact ih bs2 cs2 h1 h2

theorem strLt_trichotomy (a b : String) : strLt a b ∨ a = b ∨ strLt b a := by
  rcases charListLt_trichotomy a.data b.data with h | h | h
  · exact Or.inl h
  · exact Or.inr (Or.inl (String.toList_inj.mp h))
  · exact Or.inr (Or.inr h)

theorem strLt_asymm (a b : String) (h1 : strLt a b) (h2 : strLt b a) : False :=
  charListLt_asymm a.data b.data h1 h2

theorem strLt_trans (a b c : String) (h1 : strLt a b) (h2 : strLt b c) : strLt a c :=
  charListLt_trans a.data b.data c.data h1 h2

theorem strLe_total (a b : String) : strLe a b ∨ strLe b a := by
  rcases strLt_trichotomy a b with h | h | h
  · exact Or.inl (Or.inl h)
  · exact Or.inl (Or.inr h)
  · exact Or.inr (Or.inl h)

theorem strLe_trans (a b c : String) (h1 : strLe a b) (h2 : strLe b c) : strLe a c := by
  rcases h1 with h1 | h1
  · rcases h2 with h2 | h2
    · exact Or.inl (strLt_trans a b c h1 h2)
    · exact Or.inl (by rw [← h2]; exact h1)
  · rcases h2 with h2 | h2
    · exact Or.inl (by rw [h1]; exact h2)
    · exact Or.inr (h1.trans h2)

theorem strLe_antisymm (a b : String) (h1 : strLe a b) (h2 : strLe b a) : a = b := by
  rcases h1 with h1 | h1
  · rcases h2 with h2 | h2
    · exact (strLt_asymm a b h1 h2).elim
    · exact h2.symm
  · exact h1

theorem pairLeP_total (a b : String × String) : pairLeP a b ∨ pairLeP b a := by
  rcases strLt_trichotomy a.1 b.1 with h | h | h
  · exact Or.inl (Or.inl h)
  · rcases strLe_total a.2 b.2 with h2 | h2
    · exact Or.inl (Or.inr ⟨h, h2⟩)
    · exact Or.inr (Or.inr ⟨h.symm, h2⟩)
  · exact Or.inr (Or.inl h)

theorem pairLeP_trans (a b c : String × String) :
    pairLeP a b → pairLeP b c → pairLeP a c := by
  rintro (h1 | ⟨e1, l1⟩) (h2 | ⟨e2, l2⟩)
  · exact Or.inl (strLt_trans a.1 b.1 c.1 h1 h2)
  · exact Or.inl (by rw [← e2]; exact h1)
  · exact Or.inl (by rw [e1]; exact h2)
  · exact Or.inr ⟨e1.trans e2, strLe_trans a.2 b.2 c.2 l1 l2⟩

theorem pairLeP_antisymm (a b : String × String) :
    pairLeP a b → pairLeP b a → a = b := by
  rintro (h1 | ⟨e1, l1⟩) (h2 | ⟨e2, l2⟩)
  · exact (strLt_asymm a.1 b.1 h1 h2).elim
  · rw [e2] at h1
    exact (strLt_asymm a.1 a.1 h1 h1).elim
  · rw [← e1] at h2
    exact (strLt_asymm a.1 a.1 h2 h2).elim
  · exact Prod.ext e1 (strLe_antisymm a.2 b.2 l1 l2)

/-- C4: for every secret key, datestamp, region and request data,
`sign_request` derives the signing key by the four-step HMAC-SHA256 chain
seeded with `"AWS4" + secret_key` over the datestamp, the region, `"sts"`
and `"aws4_request"`, and the signature placed in the Authorization header
is the hex HMAC-SHA256 of the string-to-sign under that derived key
(`specSignature` is the chain written from the spec's words; the left side
is the code's inline computation). -/
theorem signRequest_sigv4_chain (access_key secret_key region amzdate datestamp
    method url : String) (params : List (String × String)) (payload : String) :
    signRequest access_key secret_key region amzdate datestamp method url params payload =
      [("Authorization", authorizationHeader access_key datestamp region
          (specSignature secret_key datestamp region
            (stringToSign amzdate datestamp region
              (canonicalRequest method (canonicalQuerystring params) region amzdate payload)))),
       ("x-amz-date", amzdate)] := by
  simp [signRequest, specSignature, specSigningKey, signatureHex, kSigning, List.foldl]

/-- C3 counterexample: the code leaves `/` unencoded in values (Python's
`quote` default `safe="/"`), while encoding with only the unreserved set
(the claim's words, `specCanonicalQuerystring`) would produce `%2F`. -/
theorem canonicalQuerystring_slash_counterexample :
    canonicalQuerystring [("k", "/")] = "k=/" ∧
    specCanonicalQuerystring [("k", "/")] = "k=%2F" ∧
    canonicalQuerystring [("k", "/")] ≠ specCanonicalQuerystring [("k", "/")] := by
  refine ⟨by decide, by decide, by decide⟩

/-- C3 amended: for parameter mappings (unique keys), the canonical
querystring is the parameters sorted lexicographically by key, each value
percent-encoded leaving the unreserved set AND the slash unencoded,
joined with `&`. -/
theorem canonicalQuerystring_sorted_by_key (ps : List (String × String))
    (hnd : (ps.map Prod.fst).Nodup) :
    canonicalQuerystring ps =
      String.intercalate "&"
        ((List.insertionSort keyLeP ps).map fun kv => kv.1 ++ "=" ++ quote kv.2) ∧
    ∀ s, quote s = String.join ((strBytes s).map fun b =>
      if unreservedByte b || b == 47 then String.singleton (Char.ofNat b)
      else percentEncodeByte b) := by
  haveI : IsTotal (String × String) pairLeP := ⟨pairLeP_total⟩
  haveI : IsTrans (String × String) pairLeP := ⟨pairLeP_trans⟩
  haveI : IsTotal (String × String) keyLeP := ⟨fun a b => strLe_total a.1 b.1⟩
  haveI : IsTrans (String × String) keyLeP := ⟨fun a b c h1 h2 => strLe_trans a.1 b.1 c.1 h1 h2⟩
  haveI : IsAntisymm (String × String) keyLtP :=
    ⟨fun a b h1 h2 => (strLt_asymm a.1 b.1 h1 h2).elim⟩
  constructor
  · have hperm : (List.insertionSort pairLeP ps).Perm (List.insertionSort keyLeP ps) :=
      (List.perm_insertionSort pairLeP ps).trans (List.perm_insertionSort keyLeP ps).symm
    have hkey : ps.Pairwise fun a b => a.1 ≠ b.1 := by
      have h2 := hnd
      rw [List.Nodup, List.pairwise_map] at h2
      exact h2
    have hkeyP : (List.insertionSort pairLeP ps).Pairwise fun a b => a.1 ≠ b.1 :=
      ((List.perm_insertionSort pairLeP ps).pairwise_iff fun h => Ne.symm h).mpr hkey
    have hkeyK : (List.insertionSort keyLeP ps).Pairwise fun a b => a.1 ≠ b.1 :=
      ((List.perm_insertionSort keyLeP ps).pairwise_iff fun h => Ne.symm h).mpr hkey
    have hs1 : List.Sorted keyLtP (List.insertionSort pairLeP ps) := by
      refine ((List.sorted_insertionSort pairLeP ps).and hkeyP).imp ?_
      rintro a b ⟨hle | ⟨he, _⟩, hne⟩
      · exact hle
      · exact absurd he hne
    have hs2 : List.Sorted keyLtP (List.insertionSort keyLeP ps) := by
      refine ((List.sorted_insertionSort keyLeP ps).and hkeyK).imp ?_
      rintro a b ⟨hle, hne⟩
      exact hle.resolve_right hne
    have e := List.eq_of_perm_of_sorted hperm hs1 hs2
    rw [canonicalQuerystring, e]
  · intro s
    rfl

/-- Witness for C3 amended at a concrete two-entry mapping. -/
theorem canonicalQuerystring_sorted_by_key_witness :
    (([("b", "2"), ("a", "1")] : List (String × String)).map Prod.fst).Nodup ∧
    canonicalQuerystring [("b", "2"), ("a", "1")] =
      String.intercalate "&"
        ((List.insertionSort keyLeP [("b", "2"), ("a", "1")]).map fun kv =>
          kv.1 ++ "=" ++ quote kv.2) :=
  ⟨by decide, (canonicalQuerystring_sorted_by_key [("b", "2"), ("a", "1")] (by decide)).1⟩

/-- C7: canonical-querystring construction is independent of the input
iteration order: permuting the parameter list leaves the canonical string
byte-identical. -/
theorem canonicalQuerystring_order_independent (ps1 ps2 : List (String × String))
    (h : ps1.Perm ps2) :
    canonicalQuerystring ps1 = canonicalQuerystring ps2 := by
  haveI : IsTotal (String × String) pairLeP := ⟨pairLeP_total⟩
  haveI : IsTrans (String × String) pairLeP := ⟨pairLeP_trans⟩
  haveI : IsAntisymm (String × String) pairLeP := ⟨pairLeP_antisymm⟩
  have e : List.insertionSort pairLeP ps1 = List.insertionSort pairLeP ps2 :=
    List.eq_of_perm_of_sorted
      ((List.perm_insertionSort pairLeP ps1).trans
        (h.trans (List.perm_insertionSort pairLeP ps2).symm))
      (List.sorted_insertionSort pairLeP ps1) (List.sorted_insertionSort pairLeP ps2)
  rw [canonicalQuerystring, canonicalQuerystring, e]

/-- Witness for C7 at a concrete pair of reorderings. -/
theorem canonicalQuerystring_order_independent_witness :
    canonicalQuerystring [("b", "2"), ("a", "1")] =
      canonicalQuerystring [("a", "1"), ("b", "2")] :=
  canonicalQuerystring_order_independent [("b", "2"), ("a", "1")]
    [("a", "1"), ("b", "2")] (by decide)

/-- C2 counterexample: both environment variables are present (one set to
the empty string), yet construction raises `CredentialError` instead of
succeeding. -/
theorem roleAssumerInit_present_empty_counterexample :
    (some "").isSome = true ∧ (some "SECRET").isSome = true ∧
    roleAssumerInit (some "arn") none "us-east-1" 3600 (some "") (some "SECRET") =
      .error (.credentialError "AWS credentials not found in environment") :=
  ⟨rfl, rfl, rfl⟩

/-- C2 amended: construction succeeds iff both ambient credentials are
present and non-empty; if either is absent it raises `CredentialError`,
and `CredentialError` is the only construction failure.  Construction
takes no transport or signing input, so no signed or network call can
precede the check. -/
theorem roleAssumerInit_fail_fast (role_arn external_id : Option String) (region : String)
    (session_duration : Nat) (envAK envSK : Option String) :
    ((∃ st, roleAssumerInit role_arn external_id region session_duration envAK envSK =
        .ok st) ↔ truthyOpt envAK = true ∧ truthyOpt envSK = true) ∧
    ((envAK = none ∨ envSK = none) →
      roleAssumerInit role_arn external_id region session_duration envAK envSK =
        .error (.credentialError "AWS credentials not found in environment")) ∧
    (∀ e, roleAssumerInit role_arn external_id region session_duration envAK envSK =
        .error e → e = .credentialError "AWS credentials not found in environment") := by
  cases h : (truthyOpt envAK && truthyOpt envSK) with
  | false =>
    have hres : roleAssumerInit role_arn external_id region session_duration envAK envSK =
        .error (.credentialError "AWS credentials not found in environment") := by
      simp [roleAssumerInit, h]
    refine ⟨⟨?_, ?_⟩, fun _ => hres, ?_⟩
    · rintro ⟨st, hst⟩
      rw [hres] at hst
      cases hst
    · rintro ⟨h1, h2⟩
      rw [h1, h2] at h
      cases h
    · intro e he
      rw [hres] at he
      injection he with h2
      exact h2.symm
  | true =>
    have h12 : truthyOpt envAK = true ∧ truthyOpt envSK = true := by
      simpa using h
    have hres : ∃ st, roleAssumerInit role_arn external_id region session_duration
        envAK envSK = .ok st := by
      unfold roleAssumerInit
      rw [h]
      exact ⟨_, rfl⟩
    refine ⟨⟨fun _ => h12, fun _ => hres⟩, ?_, ?_⟩
    · rintro (h1 | h1) <;> subst h1 <;> simp [truthyOpt] at h12
    · intro e he
      obtain ⟨st, hst⟩ := hres
      rw [hst] at he
      cases he

/-- Witness for C2 amended: with both credentials present and non-empty,
construction succeeds. -/
theorem roleAssumerInit_fail_fast_witness :
    ∃ st, roleAssumerInit (some "arn") none "us-east-1" 3600 (some "AK") (some "SK") =
      .ok st :=
  (roleAssumerInit_fail_fast (some "arn") none "us-east-1" 3600 (some "AK")
    (some "SK")).1.mpr ⟨by decide, by decide⟩

/-- C9: a present-but-empty ambient credential is rejected at construction
with `CredentialError`, with the same result as when the variable is
absent. -/
theorem roleAssumerInit_empty_as_missing (role_arn external_id : Option String)
    (region : String) (session_duration : Nat) (other : Option String) :
    (roleAssumerInit role_arn external_id region session_duration (some "") other =
       .error (.credentialError "AWS credentials not found in environment") ∧
     roleAssumerInit role_arn external_id region session_duration (some "") other =
       roleAssumerInit role_arn external_id region session_duration none other) ∧
    (roleAssumerInit role_arn external_id region session_duration other (some "") =
       .error (.credentialError "AWS credentials not found in environment") ∧
     roleAssumerInit role_arn external_id region session_duration other (some "") =
       roleAssumerInit role_arn external_id region session_duration other none) := by
  refine ⟨⟨?_, ?_⟩, ?_, ?_⟩ <;> simp [roleAssumerInit, truthyOpt]

/-- Membership of the `ExternalId` key in the built parameter dict is
exactly truthiness of the configured external ID, and the value sent is
that configured string. -/
theorem mem_buildParams_externalId (role_arn external_id : Option String)
    (session_duration ts : Nat) (v : Option String) :
    (("ExternalId", v) ∈ buildParams role_arn external_id session_duration ts) ↔
      (truthyOpt external_id = true ∧ v = external_id) := by
  rcases external_id with _ | e
  · simp [buildParams, truthyOpt]
  · by_cases he : e = ""
    · subst he
      simp [buildParams, truthyOpt]
    · simp [buildParams, truthyOpt, he]

/-- C8: the `ExternalId` query parameter is present exactly when an
external ID is configured to a non-empty value; when it is not, the key is
omitted entirely, and the value sent is never the empty string. -/
theorem buildParams_externalId (role_arn external_id : Option String)
    (session_duration ts : Nat) :
    ((∃ v, ("ExternalId", v) ∈ buildParams role_arn external_id session_duration ts) ↔
      truthyOpt external_id = true) ∧
    (truthyOpt external_id = false →
      ∀ kv ∈ buildParams role_arn external_id session_duration ts, kv.1 ≠ "ExternalId") ∧
    (∀ v, ("ExternalId", v) ∈ buildParams role_arn external_id session_duration ts →
      ∃ e, external_id = some e ∧ e ≠ "" ∧ v = some e) := by
  have hm := mem_buildParams_externalId role_arn external_id session_duration ts
  refine ⟨⟨?_, ?_⟩, ?_, ?_⟩
  · rintro ⟨v, hv⟩
    exact ((hm v).mp hv).1
  · intro ht
    exact ⟨external_id, (hm external_id).mpr ⟨ht, rfl⟩⟩
  · intro ht kv hkv hk
    have hmem : ("ExternalId", kv.2) ∈ buildParams role_arn external_id session_duration ts := by
      rw [← hk]
      exact hkv
    have h1 := ((hm kv.2).mp hmem).1
    rw [ht] at h1
    cases h1
  · intro v hv
    obtain ⟨h1, h2⟩ := (hm v).mp hv
    rcases external_id with _ | e
    · simp [truthyOpt] at h1
    · refine ⟨e, rfl, ?_, h2⟩
      intro he
      subst he
      simp [truthyOpt] at h1

/-- Witness for C8: a configured non-empty external ID is included; an
unconfigured one leaves the key absent. -/
theorem buildParams_externalId_witness :
    (∃ v, ("ExternalId", v) ∈ buildParams (some "arn") (some "eid") 3600 0) ∧
    (∀ v, ("ExternalId", v) ∈ buildParams (some "arn") none 3600 0 → False) := by
  have h1 := buildParams_externalId (some "arn") (some "eid") 3600 0
  have h2 := buildParams_externalId (some "arn") none 3600 0
  refine ⟨h1.1.mpr (by decide), ?_⟩
  intro v hv
  have h3 := h2.1.mp ⟨v, hv⟩
  simp [truthyOpt] at h3

theorem hasSubList_append_left (sub t l : List Char) (h : hasSubList sub l = true) :
    hasSubList sub (t ++ l) = true := by
  induction t with
  | nil => simpa using h
  | cons c cs ih =>
    simp only [List.cons_append, hasSubList, Bool.or_eq_true]
    exact Or.inr ih

theorem strContainsSub_append_left (p s sub : String) (h : strContainsSub s sub = true) :
    strContainsSub (p ++ s) sub = true := by
  unfold strContainsSub at h ⊢
  rw [String.data_append]
  exact hasSubList_append_left sub.data p.data s.data h

theorem strContainsSub_mid_append (x p mid : String) :
    strContainsSub (x ++ (p ++ mid)) mid = true := by
  unfold strContainsSub
  rw [String.data_append, String.data_append]
  rw [← List.append_assoc]
  have h := hasSubList_append (x.data ++ p.data) mid.data []
  simpa using h

theorem joinQuotedE_error_of_mem_none (l : List (String × Option String))
    (h : ∃ kv ∈ l, kv.2 = (none : Option String)) :
    joinQuotedE l = .error typeErrMsg := by
  induction l with
  | nil =>
    obtain ⟨kv, hm, _⟩ := h
    cases hm
  | cons hd tl ih =>
    obtain ⟨k, v⟩ := hd
    cases v with
    | none => rfl
    | some s =>
      obtain ⟨kv, hm, hv⟩ := h
      rcases List.mem_cons.mp hm with he | hm2
      · subst he
        simp at hv
      · have h2 := ih ⟨kv, hm2, hv⟩
        simp [joinQuotedE, h2, Except.map]

theorem joinQuotedE_ok_of_all_some (l : List (String × Option String))
    (h : ∀ kv ∈ l, kv.2 ≠ (none : Option String)) :
    ∃ out, joinQuotedE l = .ok out := by
  induction l with
  | nil => exact ⟨[], rfl⟩
  | cons hd tl ih =>
    obtain ⟨k, v⟩ := hd
    cases v with
    | none => exact absurd rfl (h (k, none) (List.mem_cons_self _ _))
    | some s =>
      obtain ⟨out, ho⟩ := ih fun kv hm => h kv (List.mem_cons_of_mem _ hm)
      exact ⟨(k ++ "=" ++ quote s) :: out, by simp [joinQuotedE, ho, Except.map]⟩

theorem canonicalQuerystringE_error_of_mem_none (ps : List (String × Option String))
    (h : ∃ kv ∈ ps, kv.2 = (none : Option String)) :
    canonicalQuerystringE ps = .error typeErrMsg := by
  obtain ⟨kv, hm, hv⟩ := h
  have hm2 : kv ∈ List.insertionSort keyLeOptP ps :=
    ((List.perm_insertionSort keyLeOptP ps).mem_iff).mpr hm
  have hj := joinQuotedE_error_of_mem_none _ ⟨kv, hm2, hv⟩
  simp [canonicalQuerystringE, hj, Except.map]

theorem canonicalQuerystringE_ok_of_all_some (ps : List (String × Option String))
    (h : ∀ kv ∈ ps, kv.2 ≠ (none : Option String)) :
    ∃ cq, canonicalQuerystringE ps = .ok cq := by
  obtain ⟨out, ho⟩ := joinQuotedE_ok_of_all_some (List.insertionSort keyLeOptP ps)
    fun kv hm => h kv (((List.perm_insertionSort keyLeOptP ps).mem_iff).mp hm)
  exact ⟨String.intercalate "&" out, by simp [canonicalQuerystringE, ho, Except.map]⟩

theorem signRequestE_typeError (ak sk region amzdate datestamp method url : String)
    (params : List (String × Option String)) (payload : String)
    (h : ∃ kv ∈ params, kv.2 = (none : Option String)) :
    signRequestE ak sk region amzdate datestamp method url params payload =
      .error (.signingError ("Failed to sign request: " ++ typeErrMsg)) := by
  have hc := canonicalQuerystringE_error_of_mem_none params h
  simp [signRequestE, hc]

theorem signRequestE_ok (ak sk region amzdate datestamp method url : String)
    (params : List (String × Option String)) (payload : String)
    (h : ∀ kv ∈ params, kv.2 ≠ (none : Option String)) :
    ∃ hs, signRequestE ak sk region amzdate datestamp method url params payload =
      .ok hs := by
  obtain ⟨cq, hc⟩ := canonicalQuerystringE_ok_of_all_some params h
  exact ⟨[("Authorization", authorizationHeader ak datestamp region
      (signatureHex sk datestamp region (stringToSign amzdate datestamp region
        (canonicalRequest method cq region amzdate payload)))),
     ("x-amz-date", amzdate)], by simp [signRequestE, hc]⟩

theorem signRequestE_error_kind (ak sk region amzdate datestamp method url : String)
    (params : List (String × Option String)) (payload : String) (e : PyError)
    (h : signRequestE ak sk region amzdate datestamp method url params payload =
      .error e) : ∃ m, e = .signingError m := by
  unfold signRequestE at h
  cases hc : canonicalQuerystringE params with
  | error m =>
    rw [hc] at h
    simp at h
    exact ⟨_, h.symm⟩
  | ok cq =>
    rw [hc] at h
    simp at h

theorem buildParams_roleArn_mem (role_arn external_id : Option String)
    (session_duration ts : Nat) :
    ("RoleArn", role_arn) ∈ buildParams role_arn external_id session_duration ts := by
  simp [buildParams]

theorem buildParams_all_some (arn : String) (external_id : Option String)
    (session_duration ts : Nat) :
    ∀ kv ∈ buildParams (some arn) external_id session_duration ts,
      kv.2 ≠ (none : Option String) := by
  intro kv hkv
  rcases List.mem_append.mp hkv with h | h
  · simp only [List.mem_cons, List.not_mem_nil, or_false] at h
    rcases h with h | h | h | h | h <;> subst h <;> simp
  · by_cases ht : truthyOpt external_id = true
    · rw [if_pos ht] at h
      simp only [List.mem_cons, List.not_mem_nil, or_false] at h
      subst h
      rcases external_id with _ | e
      · simp [truthyOpt] at ht
      · simp
    · rw [if_neg ht] at h
      cases h

theorem getCredentialText_ok_iff (creds : XmlNode) (name t : String) :
    getCredentialText (some creds) name = .ok t ↔ childText creds name = some t := by
  cases hf : findChild (stsNs ++ name) creds with
  | none => simp [getCredentialText, childText, hf]
  | some cred =>
    cases htx : cred.text with
    | none => simp [getCredentialText, childText, hf, htx]
    | some t2 => simp [getCredentialText, childText, hf, htx]

theorem getCredentialText_error_of_none (creds : XmlNode) (name : String)
    (h : childText creds name = none) :
    ∃ m, getCredentialText (some creds) name = .error (.roleAssumeError m) ∧
      strContainsSub m name = true := by
  unfold childText at h
  cases hf : findChild (stsNs ++ name) creds with
  | none =>
    exact ⟨"Missing " ++ name ++ " in credentials response",
      by simp [getCredentialText, hf],
      strContainsSub_sandwich "Missing " name " in credentials response"⟩
  | some cred =>
    rw [hf] at h
    simp only [Option.some_bind] at h
    exact ⟨"No text content in " ++ name ++ " element",
      by simp [getCredentialText, hf, h],
      strContainsSub_sandwich "No text content in " name " element"⟩

theorem getCredentialText_error_kind (x : Option XmlNode) (name : String) (e : PyError)
    (h : getCredentialText x name = .error e) : ∃ m, e = .roleAssumeError m := by
  cases x with
  | none =>
    simp [getCredentialText] at h
    exact ⟨_, h.symm⟩
  | some el =>
    cases hf : findChild (stsNs ++ name) el with
    | none =>
      simp [getCredentialText, hf] at h
      exact ⟨_, h.symm⟩
    | some cred =>
      cases htx : cred.text with
      | none =>
        simp [getCredentialText, hf, htx] at h
        exact ⟨_, h.symm⟩
      | some t =>
        simp [getCredentialText, hf, htx] at h

theorem extractCredentials_error_kind (creds : XmlNode) (e : PyError)
    (h : extractCredentials creds = .error e) : ∃ m, e = .roleAssumeError m := by
  unfold extractCredentials at h
  cases h1 : getCredentialText (some creds) "AccessKeyId" with
  | error e1 =>
    rw [h1] at h
    obtain ⟨m1, hm1⟩ := getCredentialText_error_kind _ _ _ h1
    subst hm1
    simp [wrapCredErr] at h
    exact ⟨_, h.symm⟩
  | ok a =>
    rw [h1] at h
    cases h2 : getCredentialText (some creds) "SecretAccessKey" with
    | error e2 =>
      rw [h2] at h
      obtain ⟨m2, hm2⟩ := getCredentialText_error_kind _ _ _ h2
      subst hm2
      simp [wrapCredErr] at h
      exact ⟨_, h.symm⟩
    | ok s =>
      rw [h2] at h
      cases h3 : getCredentialText (some creds) "SessionToken" with
      | error e3 =>
        rw [h3] at h
        obtain ⟨m3, hm3⟩ := getCredentialText_error_kind _ _ _ h3
        subst hm3
        simp [wrapCredErr] at h
        exact ⟨_, h.symm⟩
      | ok t =>
        rw [h3] at h
        cases h4 : getCredentialText (some creds) "Expiration" with
        | error e4 =>
          rw [h4] at h
          obtain ⟨m4, hm4⟩ := getCredentialText_error_kind _ _ _ h4
          subst hm4
          simp [wrapCredErr] at h
          exact ⟨_, h.symm⟩
        | ok ex =>
          rw [h4] at h
          cases h

/-- C10: `RoleAssumer` accepts `role_arn = None` at construction without
error (given usable ambient credentials), and a subsequent `assume_role`
call then fails inside signing with `SigningError` wrapping the
percent-encoding `TypeError` — regardless of the transport — not with
`RoleAssumeError` and not at construction. -/
theorem assumeRole_none_roleArn (external_id : Option String) (region : String)
    (session_duration : Nat) (envAK envSK : Option String) (ts : Nat)
    (amzdate datestamp : String) (http : HttpOutcome)
    (hak : truthyOpt envAK = true) (hsk : truthyOpt envSK = true) :
    ∃ st, roleAssumerInit none external_id region session_duration envAK envSK = .ok st ∧
      st.role_arn = none ∧
      assumeRole st ts amzdate datestamp http =
        .error (.signingError ("Failed to sign request: " ++ typeErrMsg)) := by
  have hb : (truthyOpt envAK && truthyOpt envSK) = true := by
    rw [hak, hsk]
    rfl
  refine ⟨{ role_arn := none, external_id := external_id, region := region,
            session_duration := session_duration, access_key := envAK,
            secret_key := envSK,
            signer := { access_key := envAK.getD "", secret_key := envSK.getD "",
                        region := region } }, ?_, rfl, ?_⟩
  · unfold roleAssumerInit
    rw [hb]
    rfl
  · have hmem : ∃ kv ∈ buildParams none external_id session_duration ts,
        kv.2 = (none : Option String) :=
      ⟨("RoleArn", none), buildParams_roleArn_mem none external_id session_duration ts, rfl⟩
    have hsig := signRequestE_typeError (envAK.getD "") (envSK.getD "") region
      amzdate datestamp "GET" ("https://sts." ++ region ++ ".amazonaws.com")
      (buildParams none external_id session_duration ts) "" hmem
    simp [assumeRole, hsig]

/-- Witness for C10 at concrete credentials and transport. -/
theorem assumeRole_none_roleArn_witness :
    ∃ st, roleAssumerInit none none "us-east-1" 3600 (some "AK") (some "SK") = .ok st ∧
      st.role_arn = none ∧
      assumeRole st 0 "a" "d" (.raised "unreachable") =
        .error (.signingError ("Failed to sign request: " ++ typeErrMsg)) :=
  assumeRole_none_roleArn none "us-east-1" 3600 (some "AK") (some "SK") 0 "a" "d"
    (.raised "unreachable") (by decide) (by decide)

/-- C6 counterexample: a non-2xx, non-403 status (302) does not fail —
`raise_for_status` raises only for statuses in `[400, 600)`, so the call
proceeds to parse the body and here returns full credentials. -/
theorem assumeRole_302_counterexample :
    ¬(200 ≤ 302 ∧ 302 < 300) ∧ (302 : Nat) ≠ 403 ∧
    assumeRole sampleState 0 "a" "d" (.response ⟨302, .ok sampleRoot⟩) =
      .ok [("AccessKeyId", "AKIA"), ("SecretAccessKey", "SECRET"),
           ("SessionToken", "TOKEN"), ("Expiration", "2026-01-01T00:00:00Z")] :=
  ⟨by omega, by omega, by decide⟩

/-- C6 amended: status 403 maps to `RoleAssumeError` whose message
contains the configured role ARN and `Access denied`; statuses in
`[400, 600)` other than 403 fail with the HTTP layer's `HTTPError`; and
any other status — including non-2xx statuses below 400 — is not treated
as a failure by status validation and behaves exactly as status 200. -/
theorem assumeRole_status_handling (st : RoleAssumerS) (arn : String) (ts : Nat)
    (amzdate datestamp : String) (status : Nat) (body : Except String XmlNode)
    (harn : st.role_arn = some arn) :
    (status = 403 →
      assumeRole st ts amzdate datestamp (.response ⟨status, body⟩) =
        .error (.roleAssumeError
          ("Failed to assume role " ++ arn ++ ": Access denied")) ∧
      strContainsSub ("Failed to assume role " ++ arn ++ ": Access denied") arn = true ∧
      strContainsSub ("Failed to assume role " ++ arn ++ ": Access denied")
        "Access denied" = true) ∧
    (400 ≤ status → status < 600 → status ≠ 403 →
      ∃ m, assumeRole st ts amzdate datestamp (.response ⟨status, body⟩) =
        .error (.httpError m)) ∧
    (status < 400 → status ≠ 403 →
      assumeRole st ts amzdate datestamp (.response ⟨status, body⟩) =
        assumeRole st ts amzdate datestamp (.response ⟨200, body⟩)) := by
  obtain ⟨hs, hsign⟩ := signRequestE_ok st.signer.access_key st.signer.secret_key
    st.signer.region amzdate datestamp "GET"
    ("https://sts." ++ st.region ++ ".amazonaws.com")
    (buildParams (some arn) st.external_id st.session_duration ts) ""
    (buildParams_all_some arn st.external_id st.session_duration ts)
  refine ⟨?_, ?_, ?_⟩
  · intro h403
    subst h403
    refine ⟨?_, strContainsSub_sandwich "Failed to assume role " arn ": Access denied", ?_⟩
    · simp [assumeRole, harn, hsign, pyOptStr]
    · rw [show (": Access denied" : String) = ": " ++ "Access denied" from by decide]
      exact strContainsSub_mid_append ("Failed to assume role " ++ arn) ": " "Access denied"
  · intro h40 h60 h403
    by_cases h5 : status < 500
    · refine ⟨toString status ++ " Client Error", ?_⟩
      have hcond : 400 ≤ status ∧ status < 500 := ⟨h40, h5⟩
      simp [assumeRole, harn, hsign, raiseForStatus, h403, hcond]
    · refine ⟨toString status ++ " Server Error", ?_⟩
      have hcond : ¬(400 ≤ status ∧ status < 500) := by omega
      have hcond2 : 500 ≤ status ∧ status < 600 := by
        constructor <;> omega
      simp [assumeRole, harn, hsign, raiseForStatus, h403, hcond, hcond2]
  · intro h4 h403
    have hc1 : ¬(400 ≤ status ∧ status < 500) := by omega
    have hc2 : ¬(500 ≤ status ∧ status < 600) := by omega
    simp [assumeRole, harn, hsign, raiseForStatus, h403, hc1, hc2]

/-- Witness for C6 amended: concrete 403 and 500 responses. -/
theorem assumeRole_status_handling_witness :
    assumeRole sampleState 0 "a" "d" (.response ⟨403, .error "x"⟩) =
      .error (.roleAssumeError ("Failed to assume role " ++
        "arn:aws:iam::123456789012:role/demo" ++ ": Access denied")) ∧
    ∃ m, assumeRole sampleState 0 "a" "d" (.response ⟨500, .error "x"⟩) =
      .error (.httpError m) := by
  have h1 := (assumeRole_status_handling sampleState "arn:aws:iam::123456789012:role/demo"
    0 "a" "d" 403 (.error "x") rfl).1 rfl
  have h2 := (assumeRole_status_handling sampleState "arn:aws:iam::123456789012:role/demo"
    0 "a" "d" 500 (.error "x") rfl).2.1 (by omega) (by omega) (by omega)
  exact ⟨h1.1, h2⟩

/-- C5: `assume_role` builds a credential set only when all four named
children of the namespaced `Credentials` element are present with non-null
text, in which case it returns exactly those four values; otherwise the
extraction raises `RoleAssumeError` whose message names a missing field,
and no partial credential set is returned.  On a 200 response whose body
parses and contains a `Credentials` element, `assume_role` returns exactly
the extraction's outcome. -/
theorem assumeRole_credential_extraction (creds : XmlNode) :
    (match childText creds "AccessKeyId", childText creds "SecretAccessKey",
        childText creds "SessionToken", childText creds "Expiration" with
     | some a, some s, some t, some e =>
       extractCredentials creds = .ok [("AccessKeyId", a), ("SecretAccessKey", s),
         ("SessionToken", t), ("Expiration", e)]
     | _, _, _, _ =>
       ∃ m, extractCredentials creds = .error (.roleAssumeError m) ∧
         ∃ name, name ∈ ["AccessKeyId", "SecretAccessKey", "SessionToken",
           "Expiration"] ∧ childText creds name = none ∧
           strContainsSub m name = true) ∧
    ∀ (st : RoleAssumerS) (arn : String) (ts : Nat) (amzdate datestamp : String)
      (root : XmlNode),
      st.role_arn = some arn →
      findAnywhere (stsNs ++ "Credentials") root.children = some creds →
      assumeRole st ts amzdate datestamp (.response ⟨200, .ok root⟩) =
        extractCredentials creds := by
  constructor
  · cases h1 : childText creds "AccessKeyId" with
    | none =>
      obtain ⟨m, hm, hc⟩ := getCredentialText_error_of_none creds "AccessKeyId" h1
      exact ⟨"Invalid credential format: " ++ m,
        by simp [extractCredentials, hm, wrapCredErr], "AccessKeyId", by simp, h1,
        strContainsSub_append_left "Invalid credential format: " m "AccessKeyId" hc⟩
    | some a =>
      have g1 : getCredentialText (some creds) "AccessKeyId" = .ok a :=
        (getCredentialText_ok_iff creds "AccessKeyId" a).mpr h1
      cases h2 : childText creds "SecretAccessKey" with
      | none =>
        obtain ⟨m, hm, hc⟩ := getCredentialText_error_of_none creds "SecretAccessKey" h2
        exact ⟨"Invalid credential format: " ++ m,
          by simp [extractCredentials, g1, hm, wrapCredErr], "SecretAccessKey",
          by simp, h2,
          strContainsSub_append_left "Invalid credential format: " m "SecretAccessKey" hc⟩
      | some s =>
        have g2 : getCredentialText (some creds) "SecretAccessKey" = .ok s :=
          (getCredentialText_ok_iff creds "SecretAccessKey" s).mpr h2
        cases h3 : childText creds "SessionToken" with
        | none =>
          obtain ⟨m, hm, hc⟩ := getCredentialText_error_of_none creds "SessionToken" h3
          exact ⟨"Invalid credential format: " ++ m,
            by simp [extractCredentials, g1, g2, hm, wrapCredErr], "SessionToken",
            by simp, h3,
            strContainsSub_append_left "Invalid credential format: " m "SessionToken" hc⟩
        | some t =>
          have g3 : getCredentialText (some creds) "SessionToken" = .ok t :=
            (getCredentialText_ok_iff creds "SessionToken" t).mpr h3
          cases h4 : childText creds "Expiration" with
          | none =>
            obtain ⟨m, hm, hc⟩ := getCredentialText_error_of_none creds "Expiration" h4
            exact ⟨"Invalid credential format: " ++ m,
              by simp [extractCredentials, g1, g2, g3, hm, wrapCredErr], "Expiration",
              by simp, h4,
              strContainsSub_append_left "Invalid credential format: " m "Expiration" hc⟩
          | some ex =>
            have g4 : getCredentialText (some creds) "Expiration" = .ok ex :=
              (getCredentialText_ok_iff creds "Expiration" ex).mpr h4
            simp [extractCredentials, g1, g2, g3, g4]
  · intro st arn ts amzdate datestamp root harn hfind
    obtain ⟨hs, hsign⟩ := signRequestE_ok st.signer.access_key st.signer.secret_key
      st.signer.region amzdate datestamp "GET"
      ("https://sts." ++ st.region ++ ".amazonaws.com")
      (buildParams (some arn) st.external_id st.session_duration ts) ""
      (buildParams_all_some arn st.external_id st.session_duration ts)
    simp [assumeRole, harn, hsign, raiseForStatus, hfind]

/-- Witness for C5: a fully-populated sample response extracts all four
fields, and `assume_role` returns exactly the extraction result. -/
theorem assumeRole_credential_extraction_witness :
    extractCredentials sampleCreds = .ok [("AccessKeyId", "AKIA"),
      ("SecretAccessKey", "SECRET"), ("SessionToken", "TOKEN"),
      ("Expiration", "2026-01-01T00:00:00Z")] ∧
    assumeRole sampleState 0 "20260101T000000Z" "20260101"
      (.response ⟨200, .ok sampleRoot⟩) = extractCredentials sampleCreds := by
  have h := assumeRole_credential_extraction sampleCreds
  exact ⟨h.1, h.2 sampleState "arn:aws:iam::123456789012:role/demo" 0
    "20260101T000000Z" "20260101" sampleRoot rfl rfl⟩

/-- C1 counterexample: a transport exception raised by `requests.get`
escapes `assume_role` unchanged — it is none of the three core kinds. -/
theorem assumeRole_transport_escape_counterexample :
    assumeRole sampleState 0 "a" "d" (.raised "Connection refused") =
      .error (.transportError "Connection refused") ∧
    isCoreError (.transportError "Connection refused") = false := by
  constructor
  · decide
  · rfl

/-- C1 amended: every error `assume_role` raises is one of the three core
kinds (`RoleAssumeError`, `SigningError`, `CredentialError`) — in
particular XML parse failures and signing faults are wrapped — except that
a transport exception from `requests.get` and the `HTTPError` that
`raise_for_status` raises for a non-403 status in `[400, 600)` escape to
the caller unwrapped. -/
theorem assumeRole_error_kinds (st : RoleAssumerS) (ts : Nat)
    (amzdate datestamp : String) (http : HttpOutcome) :
    match assumeRole st ts amzdate datestamp http with
    | .ok _ => True
    | .error e =>
      isCoreError e = true ∨
      (∃ m, e = .transportError m ∧ http = .raised m) ∨
      (∃ m r, e = .httpError m ∧ http = .response r ∧ 400 ≤ r.status ∧
        r.status < 600 ∧ r.status ≠ 403) := by
  cases hsig : signRequestE st.signer.access_key st.signer.secret_key st.signer.region
      amzdate datestamp "GET" ("https://sts." ++ st.region ++ ".amazonaws.com")
      (buildParams st.role_arn st.external_id st.session_duration ts) "" with
  | error e =>
    obtain ⟨m, hm⟩ := signRequestE_error_kind _ _ _ _ _ _ _ _ _ _ hsig
    simp only [assumeRole, hsig]
    exact Or.inl (by simp [hm, isCoreError])
  | ok hs =>
    cases http with
    | raised m =>
      simp only [assumeRole, hsig]
      exact Or.inr (Or.inl ⟨m, rfl, rfl⟩)
    | response r =>
      obtain ⟨status, body⟩ := r
      by_cases h403 : status = 403
      · subst h403
        simp only [assumeRole, hsig]
        simp [isCoreError]
      · by_cases h45 : 400 ≤ status ∧ status < 500
        · simp only [assumeRole, hsig]
          have hb : (status == 403) = false := by
            simp [h403]
          simp [hb, raiseForStatus, h45]
          omega
        · by_cases h56 : 500 ≤ status ∧ status < 600
          · simp only [assumeRole, hsig]
            have hb : (status == 403) = false := by
              simp [h403]
            simp [hb, raiseForStatus, h45, h56]
            omega
          · have hb : (status == 403) = false := by
              simp [h403]
            cases body with
            | error m =>
              simp only [assumeRole, hsig]
              simp [hb, raiseForStatus, h45, h56, isCoreError]
            | ok root =>
              cases hfind : findAnywhere (stsNs ++ "Credentials") root.children with
              | none =>
                simp only [assumeRole, hsig]
                simp [hb, raiseForStatus, h45, h56, hfind, isCoreError]
              | some creds =>
                cases hext : extractCredentials creds with
                | ok r =>
                  simp only [assumeRole, hsig]
                  simp [hb, raiseForStatus, h45, h56, hfind, hext]
                | error e =>
                  obtain ⟨m, hm⟩ := extractCredentials_error_kind creds e hext
                  simp only [assumeRole, hsig]
                  simp [hb, raiseForStatus, h45, h56, hfind, hext, hm, isCoreError]

/-- Sanity check of the hash embedding against the published vector the
spec cites: the SHA-256 hex digest of the empty payload. -/
theorem sha256HexOfString_empty :
    sha256HexOfString "" =
      "e3b0c44298fc1c149afbf4c8996fb92427ae41e4649b934ca495991b7852b855" := by
  decide
